import Mathlib

/-!
Shallow embedding of the Event_sourcing error-management and self-healing
subsystems (error_manager.py, self_healing_system.py, ai_fix_project.py).

Process-level effects (signals sent to child processes, file-system writes)
are made explicit: each operation returns the successor state together with
the list of signals delivered (resp. the list of file writes performed) and
its Python return value.  The operating system is abstracted as the list of
pids whose `poll()` is still `None` (the live pids); the outcome of blocking
calls such as `process.wait(timeout=5)` is an explicit boolean input.
-/

namespace EventSourcing

/-- Signals the code can deliver to a child process (`signal.SIGSTOP`,
`signal.SIGCONT`, `process.terminate()`, `process.kill()`). -/
inductive Sig where
  | sigstop
  | sigcont
  | sigterm
  | sigkill
deriving DecidableEq, Repr

/-- A signal delivered to the process with pid `pid`. -/
structure SignalEvent where
  pid : Nat
  sig : Sig
deriving DecidableEq, Repr

/-- One entry of `ServerManager.servers[name]`: the `running` flag and the
`process` handle, modelled by the pid of the `Popen` object (`none` for the
Python value `None`). The static `command`/`cwd`/`port`/`thread` fields play
no role in the dynamics and are omitted. -/
structure ServerInfo where
  running : Bool
  process : Option Nat
deriving DecidableEq, Repr

/-- State of `ServerManager`: the `servers` dict (association list keyed by
server name), the `paused_servers` set (list membership) and the
`server_processes` dict. -/
structure ServerManager where
  servers : List (String × ServerInfo)
  paused_servers : List String
  server_processes : List (String × Nat)
deriving DecidableEq, Repr

/-- Dictionary lookup on an association list (first binding wins). -/
def lookup? {α : Type} (l : List (String × α)) (k : String) : Option α :=
  (l.find? (fun p => p.1 == k)).map Prod.snd

/-- `process.poll() is None`: the pid is still live in the OS. -/
def alive (os : List Nat) (pid : Nat) : Bool :=
  os.contains pid

/-- `ServerManager.pause_server`: returns `False` when the name is not
registered or `running` is false; otherwise, when the process handle is
present and the process is live, sends SIGSTOP, adds the name to
`paused_servers` (a set: adding an existing member changes nothing) and
returns `True`; in every remaining case returns `False`. -/
def pause_server (os : List Nat) (m : ServerManager) (name : String) :
    ServerManager × List SignalEvent × Bool :=
  match lookup? m.servers name with
  | none => (m, [], false)
  | some info =>
    if !info.running then (m, [], false)
    else
      match info.process with
      | none => (m, [], false)
      | some pid =>
        if alive os pid then
          ({ m with paused_servers :=
              if m.paused_servers.contains name then m.paused_servers
              else m.paused_servers ++ [name] },
            [⟨pid, Sig.sigstop⟩], true)
        else (m, [], false)

/-- `ServerManager.resume_server`: returns `False` when the name is not
registered or not in `paused_servers`; otherwise, when the process handle is
present and the process is live, sends SIGCONT, removes the name from
`paused_servers` and returns `True`; in every remaining case returns
`False`. -/
def resume_server (os : List Nat) (m : ServerManager) (name : String) :
    ServerManager × List SignalEvent × Bool :=
  match lookup? m.servers name with
  | none => (m, [], false)
  | some info =>
    if !m.paused_servers.contains name then (m, [], false)
    else
      match info.process with
      | none => (m, [], false)
      | some pid =>
        if alive os pid then
          ({ m with paused_servers := m.paused_servers.filter (fun x => x != name) },
            [⟨pid, Sig.sigcont⟩], true)
        else (m, [], false)

/-- The state update shared by the success exits of `stop_server`:
`running := False`, `process := None`, removal from `paused_servers` and
from `server_processes`. -/
def setStopped (m : ServerManager) (name : String) : ServerManager :=
  { servers := m.servers.map (fun p =>
      if p.1 == name then (p.1, ({ running := false, process := none } : ServerInfo)) else p),
    paused_servers := m.paused_servers.filter (fun x => x != name),
    server_processes := m.server_processes.filter (fun p => p.1 != name) }

/-- `ServerManager.stop_server`.  `graceOk` is the outcome of
`process.wait(timeout=5)`: `true` when the child exits within the 5 second
grace period, `false` when `subprocess.TimeoutExpired` is raised, in which
case the `except` clause returns `False` with the state untouched (the
terminate request was already delivered). -/
def stop_server (os : List Nat) (graceOk : Bool) (m : ServerManager) (name : String) :
    ServerManager × List SignalEvent × Bool :=
  match lookup? m.servers name with
  | none => (m, [], false)
  | some info =>
    match info.process with
    | none => (setStopped m name, [], true)
    | some pid =>
      if alive os pid then
        if graceOk then (setStopped m name, [⟨pid, Sig.sigterm⟩], true)
        else (m, [⟨pid, Sig.sigterm⟩], false)
      else (setStopped m name, [], true)

/-- One row of the dict returned by `ServerManager.get_server_status`. -/
structure ServerStatus where
  running : Bool
  paused : Bool
  pid : Option Nat
deriving DecidableEq, Repr

/-- `ServerManager.get_server_status`: for every registered server, its
`running` flag, `paused_servers` membership and the pid of the handle. -/
def get_server_status (m : ServerManager) : List (String × ServerStatus) :=
  m.servers.map (fun p =>
    (p.1, ({ running := p.2.running,
             paused := m.paused_servers.contains p.1,
             pid := p.2.process } : ServerStatus)))

/-- `ServerManager.pause_all_servers`: iterates over the registered names and
pauses each one that is currently running and not in `paused_servers`. -/
def pause_all_servers (os : List Nat) (m : ServerManager) :
    ServerManager × List SignalEvent :=
  (m.servers.map Prod.fst).foldl
    (fun acc name =>
      match lookup? acc.1.servers name with
      | none => acc
      | some info =>
        if info.running && !acc.1.paused_servers.contains name then
          let r := pause_server os acc.1 name
          (r.1, acc.2 ++ r.2.1)
        else acc)
    (m, [])

/-- `ServerManager.resume_all_servers`: resumes every name in a snapshot of
`paused_servers`. -/
def resume_all_servers (os : List Nat) (m : ServerManager) :
    ServerManager × List SignalEvent :=
  m.paused_servers.foldl
    (fun acc name =>
      let r := resume_server os acc.1 name
      (r.1, acc.2 ++ r.2.1))
    (m, [])

/-- `ServerManager.stop_all_servers`: stops every registered server. -/
def stop_all_servers (os : List Nat) (graceOk : Bool) (m : ServerManager) :
    ServerManager × List SignalEvent :=
  (m.servers.map Prod.fst).foldl
    (fun acc name =>
      let r := stop_server os graceOk acc.1 name
      (r.1, acc.2 ++ r.2.1))
    (m, [])

/-- An error record built by `ErrorManager.detect_errors` and its helpers;
the optional fields are present only on the variants that set them. -/
structure Err where
  ty : String
  severity : String
  message : String
  server : Option String := none
  component : Option String := none
  timestamp : Option String := none
  file : Option String := none
  line : Option Nat := none
  text : Option String := none
deriving DecidableEq, Repr

/-- One line of an `*_events.log` file after `json.loads`: either the parse
failed (the `except: continue` branch) or it yielded a JSON object whose
relevant `get` fields are as recorded (`none` for a missing key). -/
inductive LogLine where
  | invalid
  | entry (ty : Option String) (component : Option String)
      (error_message : Option String) (timestamp : Option String)
deriving DecidableEq, Repr

/-- One `*_events.log` file under `simulation/logs`: either its lines were
read, or `open`/`readlines` raised with the given message. -/
inductive LogFile where
  | readable (name : String) (lines : List LogLine)
  | unreadable (name : String) (msg : String)
deriving DecidableEq, Repr

/-- `lines[-10:]`. -/
def lastN {α : Type} (n : Nat) (l : List α) : List α :=
  l.drop (l.length - n)

/-- The errors `ErrorManager._check_log_errors` produces for a single log
file: a `medium` `log_error` per parsed entry of type `error` among the last
10 lines, or one `low` `log_read_error` when reading the file raised. -/
def logErrorsOfFile : LogFile → List Err
  | LogFile.readable _ lines =>
      (lastN 10 lines).filterMap (fun ln =>
        match ln with
        | LogLine.invalid => none
        | LogLine.entry ty comp msg ts =>
          if ty = some "error" then
            some { ty := "log_error", severity := "medium",
                   component := some (comp.getD "unknown"),
                   message := msg.getD "Unknown error",
                   timestamp := ts }
          else none)
  | LogFile.unreadable name msg =>
      [{ ty := "log_read_error", severity := "low",
         component := some "error_manager",
         message := "Failed to read log file " ++ name ++ ": " ++ msg }]

/-- `ErrorManager._check_log_errors`: nothing when `simulation/logs` does not
exist, otherwise the concatenation over the event-log files of the directory. -/
def check_log_errors (logDirExists : Bool) (files : List LogFile) : List Err :=
  if logDirExists then files.flatMap logErrorsOfFile else []

/-- Outcome of the existence test plus `compile(content, file_path, "exec")`
for one of the files scanned by `ErrorManager._check_syntax_errors`. -/
inductive FileCheck where
  | absent
  | ok
  | syntaxError (lineno : Nat) (msg : String) (text : Option String)
  | otherError (msg : String)
deriving DecidableEq, Repr

/-- The fixed `python_files` list of `ErrorManager._check_syntax_errors`. -/
def python_files : List String :=
  ["simulation/sensor_server.py", "UI/ui_server.py",
   "ai_chat_server.py", "self_healing_system.py"]

/-- `ErrorManager._check_syntax_errors`: a `high` `syntax_error` per file
whose compile raises `SyntaxError`, a `medium` `file_error` per file whose
check raises anything else. -/
def check_syntax_errors (fsCheck : String → FileCheck) : List Err :=
  python_files.flatMap (fun f =>
    match fsCheck f with
    | FileCheck.absent => []
    | FileCheck.ok => []
    | FileCheck.syntaxError ln msg txt =>
        [{ ty := "syntax_error", severity := "high", file := some f,
           message := "Syntax error in " ++ f ++ ":" ++ toString ln ++ ": " ++ msg,
           line := some ln, text := txt }]
    | FileCheck.otherError msg =>
        [{ ty := "file_error", severity := "medium", file := some f,
           message := "Error checking " ++ f ++ ": " ++ msg }])

/-- The crash scan at the top of `ErrorManager.detect_errors`: a `critical`
`server_crash` per registered server whose `running` flag is set, whose
handle is present and whose process has terminated (`poll() is not None`). -/
def detectCrashErrors (os : List Nat) (servers : List (String × ServerInfo)) : List Err :=
  servers.filterMap (fun p =>
    match p.2.process with
    | none => none
    | some pid =>
      if p.2.running && !alive os pid then
        some { ty := "server_crash", severity := "critical",
               server := some p.1,
               message := "Server \x27" ++ p.1 ++ "\x27 has crashed" }
      else none)

/-- The file-system and OS facts `detect_errors` observes in one cycle. -/
structure DetectEnv where
  os : List Nat
  logDirExists : Bool
  logFiles : List LogFile
  fsCheck : String → FileCheck

/-- `ErrorManager.detect_errors`: crash errors, then log errors, then syntax
errors, in that order. -/
def detect_errors (env : DetectEnv) (m : ServerManager) : List Err :=
  detectCrashErrors env.os m.servers
    ++ check_log_errors env.logDirExists env.logFiles
    ++ check_syntax_errors env.fsCheck

/-- The selection made by one iteration of `ErrorManager.start_monitoring`:
the error passed to `handle_error` this cycle, if any — the first detected
error of severity `critical`/`high` when one exists, otherwise the first of
severity `medium` when one exists, otherwise none. -/
def handledErrorOfCycle (errors : List Err) : Option Err :=
  if errors.isEmpty then none
  else
    let critical_errors := errors.filter
      (fun e => e.severity == "critical" || e.severity == "high")
    if !critical_errors.isEmpty then critical_errors.head?
    else
      let medium_errors := errors.filter (fun e => e.severity == "medium")
      if !medium_errors.isEmpty then medium_errors.head?
      else none

/-- State of `ErrorManager`: the managed servers plus the error-handling
flags. `ai_client` records whether `_init_ai_client` produced a client. -/
structure ErrorManagerState where
  server_manager : ServerManager
  error_detected : Bool
  current_error : Option Err
  correction_code : Option String
  monitoring_active : Bool
  ai_client : Bool
deriving Repr

/-- The fallback text `handle_error` uses when `generate_correction_code`
returns `None` or an empty string. -/
def fallbackCorrection (err : Err) : String :=
  "# Manual fix required for: " ++ err.message ++ "\n# Error type: " ++ err.ty
    ++ "\n# Please review and fix manually"

/-- `ErrorManager.handle_error` under the `error_lock`.  `aiResponse` is the
stripped text of a successful `generate_content` call (`none` when the AI
client is unavailable or the call raised — both give `None` in the code);
`userQuit` is whether the operator answers `q` at the prompt (the
`sys.exit(0)` branch, reported as `true` in the third component), `graceOk`
feeds the `stop_server` calls of that branch.  When an error is already
being handled the call returns at once, changing nothing and delivering no
signal. -/
def handle_error (os : List Nat) (aiResponse : Option String)
    (userQuit graceOk : Bool) (st : ErrorManagerState) (err : Err) :
    ErrorManagerState × List SignalEvent × Bool :=
  if st.error_detected then (st, [], false)
  else
    let st1 := { st with error_detected := true, current_error := some err }
    let generated : Option String := if st1.ai_client then aiResponse else none
    let correction : String :=
      match generated with
      | some s => if s = "" then fallbackCorrection err else s
      | none => fallbackCorrection err
    let st2 := { st1 with correction_code := some correction }
    let paused := pause_all_servers os st2.server_manager
    if userQuit then
      let stopped := stop_all_servers os graceOk paused.1
      ({ st2 with server_manager := stopped.1 }, paused.2 ++ stopped.2, true)
    else
      let resumed := resume_all_servers os paused.1
      ({ st2 with server_manager := resumed.1,
                  error_detected := false,
                  current_error := none,
                  correction_code := none },
        paused.2 ++ resumed.2, false)

/-! ## File system model for the self-healing and AI-fix code

Paths are lists of segments; the file system maps paths to text contents.
A write shadows earlier bindings, a read returns the newest binding. -/

abbrev FS := List (List String × String)

/-- Contents of the file at `p`, `none` when no such file exists. -/
def fsRead? (fs : FS) (p : List String) : Option String :=
  (fs.find? (fun e => e.1 == p)).map Prod.snd

/-- Overwrite (or create) the file at `p` with contents `c`. -/
def fsWrite (fs : FS) (p : List String) (c : String) : FS :=
  (p, c) :: fs

/-- `.self_healing_backups`, the `BACKUP_DIR` of self_healing_system.py. -/
def BACKUP_DIR : String := ".self_healing_backups"

/-- `file_path.name`: the last path segment. -/
def fileName (p : List String) : String :=
  p.getLast?.getD ""

/-- The backup path built by `SelfHealingMonitor.create_backup` from the
name of the original file and the `%Y%m%d_%H%M%S` timestamp. -/
def backupPath (name ts : String) : List String :=
  [BACKUP_DIR, name ++ ".backup_" ++ ts]

/-- `SelfHealingMonitor.create_backup` at wall-clock timestamp `ts`:
`mkdir` of the backup directory (a no-op on the path map), then
`shutil.copy2(file_path, backup_path)`, which duplicates the current
contents of `file_path` (the callers invoke it only on an existing file).
Returns the new file system and the backup path. -/
def create_backup (ts : String) (fs : FS) (file_path : List String) :
    FS × List String :=
  let bp := backupPath (fileName file_path) ts
  (fsWrite fs bp ((fsRead? fs file_path).getD ""), bp)

/-- The `str.strip()` method of Python: drop whitespace from both ends (written over the
character list so that it evaluates by reduction). -/
def pyStrip (s : String) : String :=
  String.mk
    (((s.toList.dropWhile Char.isWhitespace).reverse.dropWhile Char.isWhitespace).reverse)

/-- The `str.lower()` method of Python (over the character list). -/
def pyLower (s : String) : String :=
  String.mk (s.toList.map Char.toLower)

/-- The characters a fenced-code-block language tag may use in the regex
` ```[a-zA-Z0-9_\-]*\n([\s\S]*?)``` ` shared by ai_fix_project.py and
`SelfHealingMonitor.fix_file_with_ai`. -/
def isFenceTagChar (c : Char) : Bool :=
  c.isAlphanum || c == '_' || c == '-'

/-- The lazy group `([\s\S]*?)` followed by the closing fence: the characters
before the first occurrence of three backticks, `none` when the fence never
closes. -/
def takeUntilFence : List Char → Option (List Char)
  | '`' :: '`' :: '`' :: _ => some []
  | c :: rest => (takeUntilFence rest).map (fun l => c :: l)
  | [] => none

/-- One anchored match attempt of the fenced-block regex: an opening fence,
a (greedy) tag run, a newline, and a closed body.  (The tag characters never
include the newline, so greediness cannot mask a match.) -/
def tryFenceAt : List Char → Option (List Char)
  | '`' :: '`' :: '`' :: rest =>
    (match rest.dropWhile isFenceTagChar with
     | '\n' :: content => takeUntilFence content
     | _ => none)
  | _ => none

/-- Regex search for the fenced block: try an anchored match at every
position from the left, moving one character forward on failure, exactly as
`re.search` does. -/
def findFence : List Char → Option (List Char)
  | [] => none
  | c :: rest =>
    match tryFenceAt (c :: rest) with
    | some captured => some captured
    | none => findFence rest

/-- `extract_code_from_ai_response` (ai_fix_project.py) and the identical
inline extraction of `fix_file_with_ai`: the stripped contents of the first
fenced code block when one matches, otherwise the whole reply stripped. -/
def extract_code_from_ai_response (text : String) : String :=
  if text = "" then ""
  else
    match findFence text.toList with
    | some captured => pyStrip (String.mk captured)
    | none => pyStrip text

/-- `SelfHealingMonitor.fix_file_with_ai` at timestamp `ts`.  `aiAvailable`
is whether `__init__` obtained an AI client; `aiResult` is the outcome of
`self.ai_client.generate(prompt)` (`Except.error` when it raised);
`userApproves` is the decision `get_user_permission` eventually returns;
`verifyOk` is the outcome of the post-apply `check_file_syntax`.  Returns
the file system, the file writes performed in order, and the boolean result.
A missing target file makes the initial `open` raise, which the outer
`except` turns into `False`. -/
def fix_file_with_ai (aiAvailable : Bool) (ts : String)
    (aiResult : Except String String) (userApproves verifyOk : Bool)
    (fs : FS) (file_path : List String) :
    FS × List (List String × String) × Bool :=
  if !aiAvailable then (fs, [], false)
  else
    match fsRead? fs file_path with
    | none => (fs, [], false)
    | some _source =>
      match aiResult with
      | Except.error _ => (fs, [], false)
      | Except.ok resp =>
        let fixed_code := extract_code_from_ai_response resp
        if fixed_code = "" then (fs, [], false)
        else if !userApproves then (fs, [], false)
        else
          let backed := create_backup ts fs file_path
          let fs2 := fsWrite backed.1 file_path fixed_code
          (fs2, [(backed.2, (fsRead? fs file_path).getD ""), (file_path, fixed_code)],
            verifyOk)

/-! ## ai_fix_project.py main loop -/

/-- A frame of a Python traceback as parsed by `parse_traceback` (the regex
scan of stderr is applied upstream; frames enter the model already split
into resolved path, line and function). -/
structure TracebackFrame where
  file_path : List String
  line_number : Nat
  function_name : String
deriving DecidableEq, Repr

/-- `fr.file_path.relative_to(PROJECT_ROOT)`: the remaining segments when
`root` is a prefix, `none` when the call raises `ValueError`. -/
def relativeTo (root p : List String) : Option (List String) :=
  if root.isPrefixOf p then some (p.drop root.length) else none

/-- `filter_in_repo_frames`: keeps the frames under the project root whose
relative path has no `site-packages`, `dist-packages` or `__pycache__`
component (compared lowercased). -/
def filter_in_repo_frames (root : List String) (frames : List TracebackFrame) :
    List TracebackFrame :=
  frames.filter (fun fr =>
    match relativeTo root fr.file_path with
    | none => false
    | some rel =>
      !(rel.any (fun part =>
          pyLower part == "site-packages" || pyLower part == "dist-packages"
            || pyLower part == "__pycache__")))

/-- `choose_target_file`: the path of the last in-repo frame (closest to the
error source), `none` when no frame survives the filter. -/
def choose_target_file (root : List String) (frames : List TracebackFrame) :
    Option (List String) :=
  match (filter_in_repo_frames root frames).getLast? with
  | none => none
  | some fr => some fr.file_path

/-- `read_text`: contents of the file, an empty string when reading raises. -/
def read_text (fs : FS) (p : List String) : String :=
  (fsRead? fs p).getD ""

/-- `write_text`: `mkdir -p` of the parent (a no-op on the path map) and an
overwrite of the file. -/
def write_text (fs : FS) (p : List String) (c : String) : FS :=
  fsWrite fs p c

/-- What one `run attempt` of `ai_fix_project.main` observes: the
`run_command` result (`code = 124` both on `TimeoutExpired` and on a command
exiting 124), the traceback frames parsed from stderr, and the outcome of
`client.generate` on the prompt of that attempt. -/
structure AttemptEnv where
  code : Int
  stdout : String
  stderr : String
  frames : List TracebackFrame
  aiResult : Except String String

/-- The `for attempt in range(1, max_attempts + 1)` loop of
`ai_fix_project.main`, one `AttemptEnv` per iteration; the empty list is the
loop running out, which falls through to `return 1`.  Returns the process
exit code and the final file system. -/
def ai_fix_main (root : List String) (fs : FS) : List AttemptEnv → Int × FS
  | [] => (1, fs)
  | env :: rest =>
    if env.code = 0 ∧ pyStrip env.stderr = "" then (0, fs)
    else if env.code = 124 then (124, fs)
    else if pyStrip env.stderr = "" then (env.code, fs)
    else
      match choose_target_file root env.frames with
      | none => (1, fs)
      | some target =>
        if (fsRead? fs target).isNone then (1, fs)
        else
          let source := read_text fs target
          if pyStrip source = "" then (1, fs)
          else
            match env.aiResult with
            | Except.error _ => (2, fs)
            | Except.ok resp =>
              let fixed := extract_code_from_ai_response resp
              if pyStrip fixed = "" then (3, fs)
              else ai_fix_main root (write_text fs target fixed) rest

/-! ## Concrete instances used by witnesses and counterexamples -/

/-- A registered manager whose single server `ui` is running with a live
child of pid 42 and is already a member of the paused set. -/
def liveMgr : ServerManager :=
  { servers := [("ui", { running := true, process := some 42 })],
    paused_servers := ["ui"],
    server_processes := [("ui", 42)] }

/-- An empty manager with no registered servers. -/
def emptyMgr : ServerManager :=
  { servers := [], paused_servers := [], server_processes := [] }

/-- A registered manager whose single server `ui` is running with a live
child of pid 42 and is not paused. -/
def runningUnpausedMgr : ServerManager :=
  { servers := [("ui", { running := true, process := some 42 })],
    paused_servers := [],
    server_processes := [("ui", 42)] }

/-- An `ErrorManager` state in the middle of handling an error
(`error_detected` set). -/
def busyState : ErrorManagerState :=
  { server_manager := liveMgr, error_detected := true,
    current_error := none, correction_code := none,
    monitoring_active := true, ai_client := false }

/-- A sample medium-severity log error. -/
def mediumErrSample : Err :=
  { ty := "log_error", severity := "medium", message := "boom" }

/-- A detection environment whose only finding is an unreadable log file,
which yields a single low-severity `log_read_error`. -/
def lowOnlyEnv : DetectEnv :=
  { os := [], logDirExists := true,
    logFiles := [LogFile.unreadable "simulation/logs/sensor_events.log" "Permission denied"],
    fsCheck := fun _ => FileCheck.ok }

/-- A detection environment whose only finding is a syntax error in
`ai_chat_server.py`. -/
def syntaxEnv : DetectEnv :=
  { os := [], logDirExists := false, logFiles := [],
    fsCheck := fun f =>
      if f = "ai_chat_server.py" then FileCheck.syntaxError 3 "invalid syntax" (some "def f(:")
      else FileCheck.ok }

/-- The error `detect_errors` produces in `syntaxEnv`. -/
def syntaxErrSample : Err :=
  { ty := "syntax_error", severity := "high", file := some "ai_chat_server.py",
    message := "Syntax error in ai_chat_server.py:3: invalid syntax",
    line := some 3, text := some "def f(:" }

/-- A one-file project tree. -/
def sampleFS : FS := [(["proj", "app.py"], "print(1)")]

/-- The path of the file in `sampleFS`. -/
def samplePath : List String := ["proj", "app.py"]

/-- A sample backup timestamp. -/
def tsSample : String := "20240101_120000"

/-- An unfenced AI reply. -/
def respSample : String := "x = 1"

/-- A traceback frame pointing into the sample project. -/
def errFrame : TracebackFrame :=
  { file_path := ["proj", "app.py"], line_number := 3, function_name := "main" }

/-- An attempt whose command timed out. -/
def timeoutEnv : AttemptEnv :=
  { code := 124, stdout := "", stderr := "Timed out", frames := [],
    aiResult := Except.ok "" }

/-- A failing attempt on which the AI call raises. -/
def aiErrEnv : AttemptEnv :=
  { code := 1, stdout := "", stderr := "Traceback", frames := [errFrame],
    aiResult := Except.error "no api key" }

/-- A failing attempt on which the AI reply extracts to a blank string. -/
def blankEnv : AttemptEnv :=
  { code := 1, stdout := "", stderr := "Traceback", frames := [errFrame],
    aiResult := Except.ok "" }

/-! ## Helper lemmas -/

theorem find?_map_fst {α β : Type} (l : List (String × α)) (k : String)
    (f : String → α → β) :
    (l.map (fun p => (p.1, f p.1 p.2))).find? (fun p => p.1 == k)
      = (l.find? (fun p => p.1 == k)).map (fun p => (p.1, f p.1 p.2)) := by
  induction l with
  | nil => rfl
  | cons a t ih =>
    by_cases h : a.1 == k <;> simp [List.find?_cons, h, ih]

theorem contains_append_self (l : List String) (name : String) :
    (l ++ [name]).contains name = true := by
  induction l with
  | nil => simp [List.contains_cons]
  | cons a t ih => simp [List.contains_cons, ih]

theorem contains_filter_ne (l : List String) (name : String) :
    (l.filter (fun x => x != name)).contains name = false := by
  induction l with
  | nil => rfl
  | cons a t ih =>
    by_cases h : a = name
    · simp [List.filter_cons, h, ih]
    · simp [List.filter_cons, h, ih, List.contains_cons, Ne.symm h]

theorem lookup?_map_fst {α β : Type} (l : List (String × α)) (k : String)
    (f : String → α → β) :
    lookup? (l.map (fun p => (p.1, f p.1 p.2))) k = (lookup? l k).map (f k) := by
  induction l with
  | nil => rfl
  | cons a t ih =>
    by_cases h : a.1 == k
    · have hk : a.1 = k := by simpa using h
      simp [lookup?, List.find?_cons, h, hk]
    · simpa [lookup?, List.find?_cons, h] using ih

theorem get_server_status_lookup (m : ServerManager) (name : String)
    (info : ServerInfo) (h : lookup? m.servers name = some info) :
    lookup? (get_server_status m) name
      = some { running := info.running,
               paused := m.paused_servers.contains name,
               pid := info.process } := by
  have key : lookup? (get_server_status m) name
      = (lookup? m.servers name).map (fun i =>
          ({ running := i.running, paused := m.paused_servers.contains name,
             pid := i.process } : ServerStatus)) :=
    lookup?_map_fst m.servers name (fun k i =>
      ({ running := i.running, paused := m.paused_servers.contains k,
         pid := i.process } : ServerStatus))
  rw [key, h]
  rfl

theorem setStopped_servers (m : ServerManager) (name : String) :
    (setStopped m name).servers
      = m.servers.map (fun p => (p.1,
          if p.1 == name then ({ running := false, process := none } : ServerInfo)
          else p.2)) := by
  unfold setStopped
  simp only []
  congr 1
  funext p
  by_cases h : p.1 == name <;> simp [h]

theorem setStopped_lookup (m : ServerManager) (name : String) (info : ServerInfo)
    (h : lookup? m.servers name = some info) :
    lookup? (setStopped m name).servers name
      = some { running := false, process := none } := by
  have key : lookup? ((setStopped m name).servers) name
      = (lookup? m.servers name).map (fun i =>
          if (name == name) = true then ({ running := false, process := none } : ServerInfo)
          else i) := by
    rw [setStopped_servers]
    exact lookup?_map_fst m.servers name
      (fun k i => if (k == name) = true
        then ({ running := false, process := none } : ServerInfo) else i)
  rw [key, h]
  simp

/-! ## Claims about ServerManager pause/resume/stop -/

/-- C1 counterexample: on a registered, running server with a live child
that is already in the paused set, `pause_server` delivers a SIGSTOP and
returns `True`, not the no-op `False` the claim states. -/
theorem pause_already_paused_cex :
    (pause_server [42] liveMgr "ui").2.2 = true ∧
    (pause_server [42] liveMgr "ui").2.1 ≠ [] := by
  decide

/-- C1 (amended): `pause_server` is a no-op returning `False` when the name
is unregistered or the `running` flag is false; but on a registered, running
server with a live child it delivers SIGSTOP and returns `True` even when
the server is already paused, the paused set then staying unchanged. -/
theorem pause_server_spec (os : List Nat) (m : ServerManager) (name : String) :
    (lookup? m.servers name = none → pause_server os m name = (m, [], false)) ∧
    (∀ info, lookup? m.servers name = some info → info.running = false →
      pause_server os m name = (m, [], false)) ∧
    (∀ info pid, lookup? m.servers name = some info → info.running = true →
      info.process = some pid → alive os pid = true →
      m.paused_servers.contains name = true →
      pause_server os m name = (m, [⟨pid, Sig.sigstop⟩], true)) := by
  refine ⟨fun h => ?_, fun info hl hr => ?_, fun info pid hl hr hp ha hc => ?_⟩
  · simp [pause_server, h]
  · simp [pause_server, hl, hr]
  · have hcm : name ∈ m.paused_servers := by simpa using hc
    simp [pause_server, hl, hr, hp, ha, hcm]

/-- Witness for C1 (amended) at concrete inputs: an unregistered name is a
no-op, and a paused live server is re-signalled with result `True`. -/
theorem pause_server_spec_witness :
    pause_server [42] emptyMgr "ui" = (emptyMgr, [], false) ∧
    pause_server [42] liveMgr "ui" = (liveMgr, [⟨42, Sig.sigstop⟩], true) := by
  constructor
  · exact (pause_server_spec [42] emptyMgr "ui").1 rfl
  · exact (pause_server_spec [42] liveMgr "ui").2.2
      { running := true, process := some 42 } 42 rfl rfl rfl rfl rfl

/-- C10: when the name is not in the paused set, `resume_server` returns
`False`, changes nothing and delivers no signal, whatever the registration
and `running` flag say. -/
theorem resume_server_not_paused (os : List Nat) (m : ServerManager)
    (name : String) (h : m.paused_servers.contains name = false) :
    resume_server os m name = (m, [], false) := by
  unfold resume_server
  cases hl : lookup? m.servers name with
  | none => rfl
  | some info =>
    have hm : name ∉ m.paused_servers := by simpa using h
    simp [hm]

/-- Witness for C10: a running, registered, live server that is not paused
is not resumed. -/
theorem resume_server_not_paused_witness :
    resume_server [42] runningUnpausedMgr "ui" = (runningUnpausedMgr, [], false) :=
  resume_server_not_paused [42] runningUnpausedMgr "ui" rfl

/-- C3: on a registered server with `running = true`, a live child and not
currently paused, `pause_server` followed immediately by `resume_server`
both succeed, and the status snapshot afterwards shows `paused = false`,
`running = true` and the same pid as the snapshot before the pause. -/
theorem pause_then_resume_roundtrip (os : List Nat) (m : ServerManager)
    (name : String) (info : ServerInfo) (pid : Nat)
    (hl : lookup? m.servers name = some info) (hr : info.running = true)
    (hp : info.process = some pid) (ha : alive os pid = true)
    (hnp : m.paused_servers.contains name = false) :
    (pause_server os m name).2.2 = true ∧
    (resume_server os (pause_server os m name).1 name).2.2 = true ∧
    lookup? (get_server_status (resume_server os (pause_server os m name).1 name).1) name
      = some { running := true, paused := false, pid := some pid } ∧
    lookup? (get_server_status m) name
      = some { running := true, paused := false, pid := some pid } := by
  have hnm : name ∉ m.paused_servers := by simpa using hnp
  have hpause : pause_server os m name
      = ({ m with paused_servers := m.paused_servers ++ [name] },
         [⟨pid, Sig.sigstop⟩], true) := by
    simp [pause_server, hl, hr, hp, ha, hnm]
  have hc1 : name ∈ m.paused_servers ++ [name] := by simp
  have hl1 : lookup? ({ m with paused_servers := m.paused_servers ++ [name] }
      : ServerManager).servers name = some info := hl
  have hresume : resume_server os
        ({ m with paused_servers := m.paused_servers ++ [name] }) name
      = ({ m with paused_servers := (m.paused_servers ++ [name]).filter (fun x => x != name) },
         [⟨pid, Sig.sigcont⟩], true) := by
    simp [resume_server, hl1, hp, ha, hc1]
  have hfinal : resume_server os (pause_server os m name).1 name
      = ({ m with paused_servers := (m.paused_servers ++ [name]).filter (fun x => x != name) },
         [⟨pid, Sig.sigcont⟩], true) := by
    rw [hpause]
    exact hresume
  have hl2 : lookup? ({ m with paused_servers :=
      (m.paused_servers ++ [name]).filter (fun x => x != name) }
      : ServerManager).servers name = some info := hl
  have h3 : lookup? (get_server_status
        ({ m with paused_servers := (m.paused_servers ++ [name]).filter (fun x => x != name) }
          : ServerManager)) name
      = some { running := true, paused := false, pid := some pid } := by
    rw [get_server_status_lookup _ name info hl2]
    simp [hr, hp, contains_filter_ne]
  refine ⟨by rw [hpause], by rw [hfinal], ?_, ?_⟩
  · rw [hfinal]
    exact h3
  · rw [get_server_status_lookup m name info hl]
    simp [hr, hp, hnm]

/-- Witness for C3: the concrete running, unpaused server `ui` round-trips
through pause and resume with its status restored. -/
theorem pause_then_resume_roundtrip_witness :
    (pause_server [42] runningUnpausedMgr "ui").2.2 = true ∧
    (resume_server [42] (pause_server [42] runningUnpausedMgr "ui").1 "ui").2.2 = true ∧
    lookup? (get_server_status
        (resume_server [42] (pause_server [42] runningUnpausedMgr "ui").1 "ui").1) "ui"
      = some { running := true, paused := false, pid := some 42 } ∧
    lookup? (get_server_status runningUnpausedMgr) "ui"
      = some { running := true, paused := false, pid := some 42 } :=
  pause_then_resume_roundtrip [42] runningUnpausedMgr "ui"
    { running := true, process := some 42 } 42 rfl rfl rfl rfl rfl

/-- C7 counterexample: with a live child that does not exit within the grace
period, `stop_server` delivers the terminate request, then the expiring
`wait(timeout=5)` raises and the function returns `False` with the state
untouched — no escalation (no kill) ever happens. -/
theorem stop_timeout_cex :
    stop_server [42] false liveMgr "ui" = (liveMgr, [⟨42, Sig.sigterm⟩], false) ∧
    ((stop_server [42] false liveMgr "ui").2.1.all
        (fun ev => ev.sig != Sig.sigkill)) = true := by
  decide

/-- C7 (amended): every successful `stop_server` leaves the server with
`running = false`, a cleared handle and outside the paused set (in
particular when it was previously paused); after the graceful terminate
request the code waits up to the 5 second grace period, and when the child
has not exited by then the stop fails with `False` and the state unchanged —
it does not escalate. -/
theorem stop_server_spec (os : List Nat) (graceOk : Bool) (m : ServerManager)
    (name : String) (info : ServerInfo)
    (hl : lookup? m.servers name = some info) :
    (∀ m' ev, stop_server os graceOk m name = (m', ev, true) →
      lookup? m'.servers name = some { running := false, process := none } ∧
      m'.paused_servers.contains name = false) ∧
    (∀ pid, info.process = some pid → alive os pid = true → graceOk = false →
      stop_server os graceOk m name = (m, [⟨pid, Sig.sigterm⟩], false)) := by
  constructor
  · intro m' ev h
    have hm' : m' = setStopped m name := by
      cases hp : info.process with
      | none =>
        have hs : stop_server os graceOk m name = (setStopped m name, [], true) := by
          simp [stop_server, hl, hp]
        rw [hs] at h
        simpa using (congrArg Prod.fst h).symm
      | some pid =>
        by_cases hav : alive os pid = true
        · cases graceOk with
          | true =>
            have hs : stop_server os true m name
                = (setStopped m name, [⟨pid, Sig.sigterm⟩], true) := by
              simp [stop_server, hl, hp, hav]
            rw [hs] at h
            simpa using (congrArg Prod.fst h).symm
          | false =>
            have hs : stop_server os false m name
                = (m, [⟨pid, Sig.sigterm⟩], false) := by
              simp [stop_server, hl, hp, hav]
            rw [hs] at h
            exact absurd (congrArg (fun x => x.2.2) h) (by simp)
        · have hs : stop_server os graceOk m name = (setStopped m name, [], true) := by
            simp [stop_server, hl, hp, hav]
          rw [hs] at h
          simpa using (congrArg Prod.fst h).symm
    subst hm'
    refine ⟨setStopped_lookup m name info hl, ?_⟩
    exact contains_filter_ne m.paused_servers name
  · intro pid hp ha hg
    subst hg
    simp [stop_server, hl, hp, ha]

/-- Witness for C7 (amended): stopping the paused live server `ui` with a
child that exits in time clears its state; with a child that ignores the
grace period the stop fails without escalation. -/
theorem stop_server_spec_witness :
    (lookup? (setStopped liveMgr "ui").servers "ui"
        = some { running := false, process := none } ∧
      (setStopped liveMgr "ui").paused_servers.contains "ui" = false) ∧
    stop_server [42] false liveMgr "ui" = (liveMgr, [⟨42, Sig.sigterm⟩], false) := by
  constructor
  · exact (stop_server_spec [42] true liveMgr "ui"
        { running := true, process := some 42 } rfl).1
      (setStopped liveMgr "ui") [⟨42, Sig.sigterm⟩] (by decide)
  · exact (stop_server_spec [42] false liveMgr "ui"
        { running := true, process := some 42 } rfl).2 42 rfl rfl rfl

/-! ## Claims about ErrorManager -/

/-- C9: while the `error_detected` flag is set, a further call to
`handle_error` returns immediately: the state is unchanged, no signal is
delivered to any server and no exit is taken. -/
theorem handle_error_already_handling (os : List Nat) (aiResponse : Option String)
    (userQuit graceOk : Bool) (st : ErrorManagerState) (err : Err)
    (h : st.error_detected = true) :
    handle_error os aiResponse userQuit graceOk st err = (st, [], false) := by
  simp [handle_error, h]

/-- Witness for C9: a concrete busy state swallows a second error without
any effect. -/
theorem handle_error_already_handling_witness :
    handle_error [42] none false true busyState mediumErrSample
      = (busyState, [], false) :=
  handle_error_already_handling [42] none false true busyState mediumErrSample rfl

theorem mem_detectCrashErrors (os : List Nat) (servers : List (String × ServerInfo))
    (e : Err) (h : e ∈ detectCrashErrors os servers) :
    e.ty = "server_crash" ∧ e.severity = "critical" := by
  unfold detectCrashErrors at h
  obtain ⟨p, -, hp⟩ := List.mem_filterMap.mp h
  split at hp
  · exact Option.noConfusion hp
  · split at hp
    · have he := Option.some.inj hp
      subst he
      exact ⟨rfl, rfl⟩
    · exact Option.noConfusion hp

theorem mem_logErrorsOfFile (f : LogFile) (e : Err) (h : e ∈ logErrorsOfFile f) :
    (e.ty = "log_error" ∧ e.severity = "medium") ∨
    (e.ty = "log_read_error" ∧ e.severity = "low") := by
  cases f with
  | readable name lines =>
    unfold logErrorsOfFile at h
    obtain ⟨ln, -, hp⟩ := List.mem_filterMap.mp h
    split at hp
    · exact Option.noConfusion hp
    · split at hp
      · left
        have he := Option.some.inj hp
        subst he
        exact ⟨rfl, rfl⟩
      · exact Option.noConfusion hp
  | unreadable name msg =>
    unfold logErrorsOfFile at h
    have he := List.mem_singleton.mp h
    subst he
    right
    exact ⟨rfl, rfl⟩

theorem mem_check_log_errors (b : Bool) (files : List LogFile) (e : Err)
    (h : e ∈ check_log_errors b files) :
    (e.ty = "log_error" ∧ e.severity = "medium") ∨
    (e.ty = "log_read_error" ∧ e.severity = "low") := by
  cases b with
  | false => exact absurd h (List.not_mem_nil e)
  | true =>
    unfold check_log_errors at h
    rw [if_pos rfl] at h
    obtain ⟨f, -, hf⟩ := List.mem_flatMap.mp h
    exact mem_logErrorsOfFile f e hf

theorem mem_check_syntax_errors (fsCheck : String → FileCheck) (e : Err)
    (h : e ∈ check_syntax_errors fsCheck) :
    (e.ty = "syntax_error" ∧ e.severity = "high") ∨
    (e.ty = "file_error" ∧ e.severity = "medium") := by
  unfold check_syntax_errors at h
  obtain ⟨f, -, hf⟩ := List.mem_flatMap.mp h
  split at hf
  · exact absurd hf (List.not_mem_nil e)
  · exact absurd hf (List.not_mem_nil e)
  · left
    have he := List.mem_singleton.mp hf
    subst he
    exact ⟨rfl, rfl⟩
  · right
    have he := List.mem_singleton.mp hf
    subst he
    exact ⟨rfl, rfl⟩

/-- C8: every error produced by `detect_errors` carries the severity fixed
by its kind — `syntax_error` errors are `high`, `server_crash` errors are
`critical`, `log_error` errors are `medium`. -/
theorem detect_errors_severity (env : DetectEnv) (m : ServerManager) (e : Err)
    (he : e ∈ detect_errors env m) :
    (e.ty = "syntax_error" → e.severity = "high") ∧
    (e.ty = "server_crash" → e.severity = "critical") ∧
    (e.ty = "log_error" → e.severity = "medium") := by
  unfold detect_errors at he
  rcases List.mem_append.mp he with h12 | h3
  · rcases List.mem_append.mp h12 with h1 | h2
    · obtain ⟨ht, hs⟩ := mem_detectCrashErrors env.os m.servers e h1
      refine ⟨fun hty => ?_, fun _ => hs, fun hty => ?_⟩
      · rw [ht] at hty; exact absurd hty (by decide)
      · rw [ht] at hty; exact absurd hty (by decide)
    · rcases mem_check_log_errors env.logDirExists env.logFiles e h2 with
        ⟨ht, hs⟩ | ⟨ht, hs⟩
      · refine ⟨fun hty => ?_, fun hty => ?_, fun _ => hs⟩
        · rw [ht] at hty; exact absurd hty (by decide)
        · rw [ht] at hty; exact absurd hty (by decide)
      · refine ⟨fun hty => ?_, fun hty => ?_, fun hty => ?_⟩
        · rw [ht] at hty; exact absurd hty (by decide)
        · rw [ht] at hty; exact absurd hty (by decide)
        · rw [ht] at hty; exact absurd hty (by decide)
  · rcases mem_check_syntax_errors env.fsCheck e h3 with ⟨ht, hs⟩ | ⟨ht, hs⟩
    · refine ⟨fun _ => hs, fun hty => ?_, fun hty => ?_⟩
      · rw [ht] at hty; exact absurd hty (by decide)
      · rw [ht] at hty; exact absurd hty (by decide)
    · refine ⟨fun hty => ?_, fun hty => ?_, fun hty => ?_⟩
      · rw [ht] at hty; exact absurd hty (by decide)
      · rw [ht] at hty; exact absurd hty (by decide)
      · rw [ht] at hty; exact absurd hty (by decide)

/-- Witness for C8: the syntax error detected in `syntaxEnv` carries
severity `high`. -/
theorem detect_errors_severity_witness :
    (syntaxErrSample.ty = "syntax_error" → syntaxErrSample.severity = "high") ∧
    (syntaxErrSample.ty = "server_crash" → syntaxErrSample.severity = "critical") ∧
    (syntaxErrSample.ty = "log_error" → syntaxErrSample.severity = "medium") :=
  detect_errors_severity syntaxEnv emptyMgr syntaxErrSample (by decide)

theorem filter_head?_split {α : Type} (p : α → Bool) (l : List α) (e : α)
    (h : (l.filter p).head? = some e) :
    ∃ l₁ l₂, l = l₁ ++ e :: l₂ ∧ p e = true ∧ ∀ x ∈ l₁, p x = false := by
  induction l with
  | nil => simp [List.filter_nil] at h
  | cons a t ih =>
    by_cases hp : p a = true
    · rw [List.filter_cons_of_pos hp] at h
      have ha : a = e := by simpa using h
      subst ha
      exact ⟨[], t, rfl, hp, fun x hx => absurd hx (List.not_mem_nil x)⟩
    · rw [List.filter_cons_of_neg hp] at h
      obtain ⟨l₁, l₂, heq, hpe, hall⟩ := ih h
      refine ⟨a :: l₁, l₂, by rw [heq]; rfl, hpe, ?_⟩
      intro x hx
      rcases List.mem_cons.mp hx with rfl | hx
      · revert hp; cases p x <;> simp
      · exact hall x hx

theorem filter_nil_all_false {α : Type} (p : α → Bool) (l : List α)
    (h : l.filter p = []) : ∀ x ∈ l, p x = false := by
  intro x hx
  by_contra hc
  have hpx : p x = true := by revert hc; cases p x <;> simp
  have hm : x ∈ l.filter p := List.mem_filter.mpr ⟨hx, hpx⟩
  rw [h] at hm
  exact absurd hm (List.not_mem_nil x)

/-- C2 counterexample: a monitoring cycle whose only detected error is the
low-severity `log_read_error` from an unreadable log file handles no error
at all, although the detector returned one. -/
theorem monitoring_cycle_low_only_cex :
    detect_errors lowOnlyEnv emptyMgr ≠ [] ∧
    handledErrorOfCycle (detect_errors lowOnlyEnv emptyMgr) = none := by
  constructor
  · decide
  · decide

/-- C2 (amended): in every monitoring cycle in which the detected errors
include at least one of severity critical, high or medium, exactly one error
is handled — the first-found error of severity critical or high when any
exists, otherwise the first-found error of severity medium — and the
remaining errors of the cycle are left unhandled; a cycle whose errors are
all of other severities handles none. -/
theorem monitoring_cycle_top_error (errors : List Err)
    (h : ∃ e ∈ errors, e.severity = "critical" ∨ e.severity = "high" ∨
      e.severity = "medium") :
    ∃ l₁ e l₂, errors = l₁ ++ e :: l₂ ∧ handledErrorOfCycle errors = some e ∧
      (((e.severity = "critical" ∨ e.severity = "high") ∧
          ∀ x ∈ l₁, ¬(x.severity = "critical" ∨ x.severity = "high")) ∨
        ((∀ x ∈ errors, ¬(x.severity = "critical" ∨ x.severity = "high")) ∧
          e.severity = "medium" ∧ ∀ x ∈ l₁, x.severity ≠ "medium")) := by
  obtain ⟨w, hw, hws⟩ := h
  have hne : errors ≠ [] := by
    intro hnil
    rw [hnil] at hw
    exact absurd hw (List.not_mem_nil w)
  have hie : errors.isEmpty = false := by
    cases errors with
    | nil => exact absurd rfl hne
    | cons a t => rfl
  cases hcrit : errors.filter (fun e => e.severity == "critical" || e.severity == "high") with
  | cons c cs =>
    have hhead : (errors.filter
        (fun e => e.severity == "critical" || e.severity == "high")).head? = some c := by
      rw [hcrit]; rfl
    obtain ⟨l₁, l₂, heq, hpe, hall⟩ := filter_head?_split _ errors c hhead
    refine ⟨l₁, c, l₂, heq, ?_, Or.inl ⟨by simpa using hpe, ?_⟩⟩
    · simp [handledErrorOfCycle, hie, hcrit]
    · intro x hx hor
      have hb := hall x hx
      simp at hb
      rcases hor with h1 | h1
      · exact hb.1 h1
      · exact hb.2 h1
  | nil =>
    have hallnc := filter_nil_all_false
      (fun e => e.severity == "critical" || e.severity == "high") errors hcrit
    have hwm : w.severity = "medium" := by
      have hb := hallnc w hw
      simp at hb
      rcases hws with h1 | h1 | h1
      · exact absurd h1 hb.1
      · exact absurd h1 hb.2
      · exact h1
    have hmem : w ∈ errors.filter (fun e => e.severity == "medium") :=
      List.mem_filter.mpr ⟨hw, by simp [hwm]⟩
    cases hmed : errors.filter (fun e => e.severity == "medium") with
    | nil =>
      rw [hmed] at hmem
      exact absurd hmem (List.not_mem_nil w)
    | cons d ds =>
      have hhead : (errors.filter (fun e => e.severity == "medium")).head? = some d := by
        rw [hmed]; rfl
      obtain ⟨l₁, l₂, heq, hpe, hall⟩ := filter_head?_split _ errors d hhead
      refine ⟨l₁, d, l₂, heq, ?_, Or.inr ⟨?_, by simpa using hpe, ?_⟩⟩
      · simp [handledErrorOfCycle, hie, hcrit, hmed]
      · intro x hx hor
        have hb := hallnc x hx
        simp at hb
        rcases hor with h1 | h1
        · exact hb.1 h1
        · exact hb.2 h1
      · intro x hx
        have hb := hall x hx
        simpa using hb

/-- Witness for C2 (amended): a cycle with a single medium error handles
exactly that error. -/
theorem monitoring_cycle_top_error_witness :
    ∃ l₁ e l₂, [mediumErrSample] = l₁ ++ e :: l₂ ∧
      handledErrorOfCycle [mediumErrSample] = some e ∧
      (((e.severity = "critical" ∨ e.severity = "high") ∧
          ∀ x ∈ l₁, ¬(x.severity = "critical" ∨ x.severity = "high")) ∨
        ((∀ x ∈ [mediumErrSample], ¬(x.severity = "critical" ∨ x.severity = "high")) ∧
          e.severity = "medium" ∧ ∀ x ∈ l₁, x.severity ≠ "medium")) :=
  monitoring_cycle_top_error [mediumErrSample]
    ⟨mediumErrSample, by simp, Or.inr (Or.inr rfl)⟩

/-! ## Claims about the self-healing fix path and the AI-fix batch script -/

theorem fsRead?_fsWrite (fs : FS) (p q : List String) (c : String) :
    fsRead? (fsWrite fs p c) q = if q = p then some c else fsRead? fs q := by
  by_cases h : q = p
  · subst h
    simp [fsRead?, fsWrite, List.find?_cons]
  · have hb : (p == q) = false := by
      simpa using Ne.symm h
    simp [fsRead?, fsWrite, List.find?_cons, hb, h]

/-- C4: when an approved candidate fix is applied, the backup — named
`<original_name>.backup_<timestamp>` inside the dedicated backup directory —
is written strictly before the candidate overwrites the original (the write
trace lists it first), and the backup contents equal the pre-apply
contents of the file. -/
theorem fix_file_backup_then_apply (ts resp : String) (verifyOk : Bool)
    (fs : FS) (path : List String) (src : String)
    (hread : fsRead? fs path = some src)
    (hne : extract_code_from_ai_response resp ≠ "") :
    fix_file_with_ai true ts (Except.ok resp) true verifyOk fs path
      = (fsWrite (fsWrite fs (backupPath (fileName path) ts) src) path
            (extract_code_from_ai_response resp),
         [(backupPath (fileName path) ts, src),
          (path, extract_code_from_ai_response resp)], verifyOk) ∧
    backupPath (fileName path) ts
      = [BACKUP_DIR, fileName path ++ ".backup_" ++ ts] ∧
    fsRead? (fsWrite (fsWrite fs (backupPath (fileName path) ts) src) path
        (extract_code_from_ai_response resp)) path
      = some (extract_code_from_ai_response resp) ∧
    (path ≠ backupPath (fileName path) ts →
      fsRead? (fsWrite (fsWrite fs (backupPath (fileName path) ts) src) path
          (extract_code_from_ai_response resp)) (backupPath (fileName path) ts)
        = some src) := by
  refine ⟨?_, rfl, ?_, ?_⟩
  · simp [fix_file_with_ai, hread, hne, create_backup]
  · simp [fsRead?_fsWrite]
  · intro hnep
    rw [fsRead?_fsWrite, if_neg (Ne.symm hnep), fsRead?_fsWrite, if_pos rfl]

/-- Witness for C4: applying an approved unfenced candidate to the sample
file copies the old contents into the timestamped backup before the
overwrite. -/
theorem fix_file_backup_then_apply_witness :
    fix_file_with_ai true tsSample (Except.ok respSample) true true sampleFS samplePath
      = (fsWrite (fsWrite sampleFS (backupPath (fileName samplePath) tsSample)
            "print(1)") samplePath (extract_code_from_ai_response respSample),
         [(backupPath (fileName samplePath) tsSample, "print(1)"),
          (samplePath, extract_code_from_ai_response respSample)], true) :=
  (fix_file_backup_then_apply tsSample respSample true sampleFS samplePath
    "print(1)" (by decide) (by decide)).1

/-- C5: when the operator rejects the proposed candidate, `fix_file_with_ai`
returns `False`, performs no write at all — no backup is created — and
leaves the file system, hence the target file, byte-identical. -/
theorem fix_file_rejected_untouched (ts resp : String) (verifyOk : Bool)
    (fs : FS) (path : List String) (src : String)
    (hread : fsRead? fs path = some src)
    (hne : extract_code_from_ai_response resp ≠ "") :
    fix_file_with_ai true ts (Except.ok resp) false verifyOk fs path
      = (fs, [], false) := by
  simp [fix_file_with_ai, hread, hne]

/-- Witness for C5: rejecting the candidate on the sample file leaves the
tree unchanged with an empty write trace. -/
theorem fix_file_rejected_untouched_witness :
    fix_file_with_ai true tsSample (Except.ok respSample) false true sampleFS samplePath
      = (sampleFS, [], false) :=
  fix_file_rejected_untouched tsSample respSample true sampleFS samplePath
    "print(1)" (by decide) (by decide)

/-- C6: a blank extracted AI reply makes `fix_file_with_ai` fail without
touching the target file; in the batch script, a blank extraction exits the
attempt loop with code 3 and an unchanged tree, an AI-generation error exits
with code 2, and a command timeout exits with code 124. -/
theorem ai_fix_exit_codes (root : List String) (fs : FS) (env : AttemptEnv)
    (rest : List AttemptEnv) (ts : String) (userApproves verifyOk : Bool)
    (path : List String) :
    (∀ resp src, fsRead? fs path = some src →
        extract_code_from_ai_response resp = "" →
        fix_file_with_ai true ts (Except.ok resp) userApproves verifyOk fs path
          = (fs, [], false)) ∧
    (env.code = 124 → ai_fix_main root fs (env :: rest) = (124, fs)) ∧
    (∀ target src msg, pyStrip env.stderr ≠ "" → env.code ≠ 124 →
        choose_target_file root env.frames = some target →
        fsRead? fs target = some src → pyStrip src ≠ "" →
        env.aiResult = Except.error msg →
        ai_fix_main root fs (env :: rest) = (2, fs)) ∧
    (∀ target src resp, pyStrip env.stderr ≠ "" → env.code ≠ 124 →
        choose_target_file root env.frames = some target →
        fsRead? fs target = some src → pyStrip src ≠ "" →
        env.aiResult = Except.ok resp →
        pyStrip (extract_code_from_ai_response resp) = "" →
        ai_fix_main root fs (env :: rest) = (3, fs)) := by
  refine ⟨?_, ?_, ?_, ?_⟩
  · intro resp src hread hblank
    simp [fix_file_with_ai, hread, hblank]
  · intro h124
    simp [ai_fix_main, h124]
  · intro target src msg hs h124 ht hread hsrc hai
    simp [ai_fix_main, hs, h124, ht, hread, hsrc, hai, read_text]
  · intro target src resp hs h124 ht hread hsrc hai hblank
    simp [ai_fix_main, hs, h124, ht, hread, hsrc, hai, hblank, read_text]

/-- Witness for C6: on concrete attempts, a blank extraction aborts the fix
and exits with 3, an AI error exits with 2, and a timeout exits with 124,
each leaving the sample tree unchanged. -/
theorem ai_fix_exit_codes_witness :
    fix_file_with_ai true tsSample (Except.ok "") true true sampleFS samplePath
      = (sampleFS, [], false) ∧
    ai_fix_main ["proj"] sampleFS [timeoutEnv] = (124, sampleFS) ∧
    ai_fix_main ["proj"] sampleFS [aiErrEnv] = (2, sampleFS) ∧
    ai_fix_main ["proj"] sampleFS [blankEnv] = (3, sampleFS) := by
  refine ⟨?_, ?_, ?_, ?_⟩
  · exact (ai_fix_exit_codes ["proj"] sampleFS timeoutEnv [] tsSample true true
      samplePath).1 "" "print(1)" (by decide) rfl
  · exact (ai_fix_exit_codes ["proj"] sampleFS timeoutEnv [] tsSample true true
      samplePath).2.1 rfl
  · exact (ai_fix_exit_codes ["proj"] sampleFS aiErrEnv [] tsSample true true
      samplePath).2.2.1 samplePath "print(1)" "no api key" (by decide) (by decide)
      (by decide) (by decide) (by decide) rfl
  · exact (ai_fix_exit_codes ["proj"] sampleFS blankEnv [] tsSample true true
      samplePath).2.2.2 samplePath "print(1)" "" (by decide) (by decide)
      (by decide) (by decide) (by decide) rfl (by decide)

end EventSourcing
